import Mathlib

/-!
Shallow embedding of the gllcms GStreamer element (src/gllcms.rs):
the Settings property model, the param-spec declarations, the LUT cache
logic and GL buffer lifecycle of filter_texture, and the gl_start/gl_stop
state machine. Pure Rust functions become Lean functions; the stateful
per-frame path becomes an explicit state-passing step function; panics
(assert!, expect, todo!) become Except errors; the lcms2 transform and the
GL driver are external collaborators, modelled at their documented
interface boundary only.
-/

namespace Gllcms

/-- Model of an f64 as used by gllcms. The four adjustment scalars are only
ever compared with IEEE-754 equality (the derived PartialEq of Settings)
and passed opaquely to lcms2; no arithmetic is performed on them in the
embedded code. Exactly representable values are carried as rationals; all
NaN payloads collapse to one constructor, and signed zeros collapse to
val 0, both consistent with IEEE-754 equality semantics. -/
inductive F64
  | nan
  | val (q : ℚ)
  deriving Repr, DecidableEq

/-- IEEE-754 equality as implemented by PartialEq for f64: NaN compares
unequal to everything, itself included. -/
def F64.ieeeEq : F64 → F64 → Bool
  | .val a, .val b => decide (a = b)
  | _, _ => false

/-- Whether the modelled double is a NaN. Statement-level helper. -/
def F64.isNaN : F64 → Bool
  | .nan => true
  | .val _ => false

/-- DEFAULT_BRIGHTNESS, src/gllcms.rs line 48. -/
def DEFAULT_BRIGHTNESS : F64 := .val 0

/-- DEFAULT_CONTRAST, src/gllcms.rs line 49. -/
def DEFAULT_CONTRAST : F64 := .val 1

/-- DEFAULT_HUE, src/gllcms.rs line 50. -/
def DEFAULT_HUE : F64 := .val 0

/-- DEFAULT_SATURATION, src/gllcms.rs line 51. -/
def DEFAULT_SATURATION : F64 := .val 0

/-- The Settings struct, src/gllcms.rs lines 53-60. The derived Lean
DecidableEq is meta-level structural equality used only in statements; the
Rust derive(PartialEq) comparison is Settings.eqRust below. -/
structure Settings where
  icc : Option String
  brightness : F64
  contrast : F64
  hue : F64
  saturation : F64
  deriving Repr, DecidableEq

/-- The derived PartialEq of Settings (field-wise; the Option String field
compares structurally, the four f64 fields compare with IEEE equality). -/
def Settings.eqRust (a b : Settings) : Bool :=
  decide (a.icc = b.icc) && a.brightness.ieeeEq b.brightness
    && a.contrast.ieeeEq b.contrast && a.hue.ieeeEq b.hue
    && a.saturation.ieeeEq b.saturation

/-- impl Default for Settings, src/gllcms.rs lines 62-72. -/
def Settings.default : Settings :=
  { icc := none, brightness := DEFAULT_BRIGHTNESS, contrast := DEFAULT_CONTRAST,
    hue := DEFAULT_HUE, saturation := DEFAULT_SATURATION }

/-- Whether any of the four scalar fields is NaN. Statement-level helper. -/
def Settings.hasNaN (s : Settings) : Bool :=
  s.brightness.isNaN || s.contrast.isNaN || s.hue.isNaN || s.saturation.isNaN

/-- Model of a glib ParamSpecDouble declaration: name, minimum, maximum and
default value, as built in the PROPERTIES array. -/
structure ParamSpecDouble where
  name : String
  minimum : ℚ
  maximum : ℚ
  defaultValue : ℚ
  deriving Repr, DecidableEq

/-- f64::MAX as an exact rational, (2^53 - 1) * 2^971. -/
def f64MAX : ℚ := (2 ^ 53 - 1) * 2 ^ 971

/-- f64::MIN as an exact rational. -/
def f64MIN : ℚ := -f64MAX

/-- The brightness property declaration, src/gllcms.rs lines 94-101. -/
def brightnessParamSpec : ParamSpecDouble :=
  { name := "brightness", minimum := f64MIN, maximum := f64MAX, defaultValue := 0 }

/-- The contrast property declaration, src/gllcms.rs lines 102-109. -/
def contrastParamSpec : ParamSpecDouble :=
  { name := "contrast", minimum := f64MIN, maximum := f64MAX, defaultValue := 1 }

/-- The hue property declaration, src/gllcms.rs lines 110-116:
minimum 0, maximum 360, default 0. -/
def hueParamSpec : ParamSpecDouble :=
  { name := "hue", minimum := 0, maximum := 360, defaultValue := 0 }

/-- The saturation property declaration, src/gllcms.rs lines 117-124. -/
def saturationParamSpec : ParamSpecDouble :=
  { name := "saturation", minimum := f64MIN, maximum := f64MAX, defaultValue := 0 }

/-- GLib validation semantics for a double param spec (external GLib
collaborator): g_param_value_validate clamps a double into the closed
interval from minimum to maximum, both endpoints included, so a value is
accepted as-is exactly when it lies in that closed interval. The bounds
themselves come from the PROPERTIES array in src/gllcms.rs. -/
def ParamSpecDouble.accepts (ps : ParamSpecDouble) (v : ℚ) : Bool :=
  decide (ps.minimum ≤ v) && decide (v ≤ ps.maximum)

/-- The single GL error class relevant here. -/
inductive GlError
  | invalidOp
  deriving Repr, DecidableEq

/-- Model of an OpenGL buffer object as far as the glBufferStorage data
store is concerned: whether an immutable store has been created, whether
that store was allocated with GL_DYNAMIC_STORAGE_BIT, and the store size. -/
structure GlBufferObj where
  immutableStore : Bool
  dynamicStorage : Bool
  sizeBytes : Option Nat
  deriving Repr, DecidableEq

/-- GL_DYNAMIC_STORAGE_BIT flag value. -/
def GL_DYNAMIC_STORAGE_BIT : Nat := 0x0100

/-- glBufferStorage, modelled from the OpenGL 4.4+ core specification
(external collaborator): the call creates an immutable data store. If the
buffer already has an immutable store the call fails with
GL_INVALID_OPERATION and the buffer is left unchanged; otherwise the
immutable flag becomes set, and later updates of the contents (via
glBufferSubData) are possible only when GL_DYNAMIC_STORAGE_BIT was in the
flags. GL errors do not unwind the caller; they are recorded alongside the
resulting buffer. -/
def glBufferStorage (b : GlBufferObj) (size : Nat) (flags : Nat) :
    GlBufferObj × Option GlError :=
  if b.immutableStore then (b, some GlError.invalidOp)
  else ({ immutableStore := true,
          dynamicStorage := decide (flags.land GL_DYNAMIC_STORAGE_BIT ≠ 0),
          sizeBytes := some size }, none)

/-- The only pixel format used by filter_texture (PixelFormat::RGBA_8). -/
inductive PixelFormat
  | rgba8
  deriving Repr, DecidableEq

/-- lcms2 rendering intents (only perceptual is used by the code). -/
inductive Intent
  | perceptual
  | relativeColorimetric
  | saturation
  | absoluteColorimetric
  deriving Repr, DecidableEq

/-- The two lcms2 transform flags that appear in the code. -/
structure TransformFlags where
  noNegatives : Bool
  keepSequence : Bool
  deriving Repr, DecidableEq

/-- Flags::default() of the lcms2 crate: no flags set. Transform::new
(the two-profile constructor) passes exactly this default to the library;
it exposes no flags parameter of its own. -/
def TransformFlags.default : TransformFlags := ⟨false, false⟩

/-- The profiles that can enter the chain: a custom ICC profile loaded from
a path, the synthetic brightness/contrast/hue/saturation abstract profile
(built with GlobalContext, 255 sample points and no color temperature),
and the fixed sRGB output profile. -/
inductive ProfileKind
  | customIcc (path : String)
  | bchsw (points : Nat) (brightness contrast hue saturation : F64)
  | srgb
  deriving Repr, DecidableEq

/-- The transform handed to lcms2: either the two-profile constructor
Transform::new or the chained constructor Transform::new_multiprofile,
with pixel formats, rendering intent and flags as recorded. -/
inductive TransformSpec
  | twoProfile (input : ProfileKind) (inFmt : PixelFormat) (output : ProfileKind)
      (outFmt : PixelFormat) (intent : Intent) (flags : TransformFlags)
  | multiProfile (chain : List ProfileKind) (inFmt : PixelFormat)
      (outFmt : PixelFormat) (intent : Intent) (flags : TransformFlags)
  deriving Repr, DecidableEq

/-- The rendering intent of a transform spec. -/
def TransformSpec.intent : TransformSpec → Intent
  | .twoProfile _ _ _ _ i _ => i
  | .multiProfile _ _ _ i _ => i

/-- The flags of a transform spec. -/
def TransformSpec.flags : TransformSpec → TransformFlags
  | .twoProfile _ _ _ _ _ f => f
  | .multiProfile _ _ _ _ f => f

/-- The profile-chain and transform construction of the rebuild branch,
src/gllcms.rs lines 377-427: push the custom profile when an icc path is
set, push the bchsw abstract profile (255 points), then either build the
direct two-profile transform to sRGB when the list holds a single profile,
or append sRGB and build the multiprofile chain with
Flags::NO_NEGATIVES | Flags::KEEP_SEQUENCE. Intent is Perceptual in both
branches. -/
def buildTransform (s : Settings) : TransformSpec :=
  let profiles : List ProfileKind :=
    (match s.icc with
     | some icc => [ProfileKind.customIcc icc]
     | none => []) ++
    [ProfileKind.bchsw 255 s.brightness s.contrast s.hue s.saturation]
  match profiles with
  | [singleProfile] =>
      TransformSpec.twoProfile singleProfile PixelFormat.rgba8 ProfileKind.srgb
        PixelFormat.rgba8 Intent.perceptual TransformFlags.default
  | _ =>
      TransformSpec.multiProfile (profiles ++ [ProfileKind.srgb]) PixelFormat.rgba8
        PixelFormat.rgba8 Intent.perceptual ⟨true, true⟩

/-- The State struct, src/gllcms.rs lines 74-79. The shader object and the
loaded GL function table carry no behavior visible to the claims and are
omitted; the SSBO name is carried with its modelled data-store state. -/
structure State where
  lutBuffer : GlBufferObj
  currentSettings : Option Settings
  deriving Repr, DecidableEq

/-- The panic-class aborts reachable in the embedded code. -/
inductive Panic
  | startAssert
  | stopExpect
  | filterExpect
  | todoMemcpy
  deriving Repr, DecidableEq

/-- A freshly generated buffer name from glGenBuffers (create_ssbo, lines
278-284): no data store exists yet. -/
def freshBuffer : GlBufferObj :=
  { immutableStore := false, dynamicStorage := false, sizeBytes := none }

/-- The state installed by gl_start, src/gllcms.rs lines 307-313:
fresh shader, fresh SSBO, current_settings None. -/
def initialState : State :=
  { lutBuffer := freshBuffer, currentSettings := none }

/-- gl_start, src/gllcms.rs lines 287-321: creates the shader and the SSBO
and replaces the state, asserting the previous state was uninitialized
(assert! panics when called while already started). -/
def gl_start : Option State → Except Panic (Option State)
  | some _ => .error .startAssert
  | none => .ok (some initialState)

/-- gl_stop, src/gllcms.rs lines 323-332: takes the state, panicking via
expect when it was not initialized. -/
def gl_stop : Option State → Except Panic (Option State)
  | some _ => .ok none
  | none => .error .stopExpect

/-- The log statements emitted along the filter_texture paths. -/
inductive LogMsg
  | settingsChanged
  | identityWarning
  | creatingLut
  | renderFinished
  deriving Repr, DecidableEq

/-- A record of the glBufferStorage upload performed by the rebuild branch:
the byte size and flags passed, and the GL error produced, if any. -/
structure UploadCall where
  sizeBytes : Nat
  flags : Nat
  glError : Option GlError
  deriving Repr, DecidableEq

/-- Observable outcome of one successful filter_texture invocation. -/
structure FrameTrace where
  newState : State
  rebuilt : Bool
  upload : Option UploadCall
  rendered : Bool
  deriving Repr, DecidableEq

/-- Equality on Option of Settings references, as evaluated by
current_settings.as_ref() != Some(settings) at src/gllcms.rs line 359. -/
def optSettingsEq : Option Settings → Option Settings → Bool
  | some a, some b => a.eqRust b
  | none, none => true
  | _, _ => false

/-- The settings-changed test of src/gllcms.rs line 359. -/
def settingsChangedCheck (cur : Option Settings) (s : Settings) : Bool :=
  !optSettingsEq cur (some s)

/-- The enumeration of all 24-bit packed inputs handed to the transform,
src/gllcms.rs line 429: (0..0x1_00_00_00).collect(). -/
def sourcePixels : List Nat := List.range 0x1000000

/-- filter_texture, src/gllcms.rs lines 338-470. The argument tp is the
opaque per-pixel action of the external lcms2 transform
(transform_in_place applies it element-wise, in place, to the pixel
buffer). The function panics (expect) when the state is None; on a
settings change it warns and panics (todo!) for the default configuration,
and otherwise builds the transform, maps it over sourcePixels, and uploads
the result with glBufferStorage(SHADER_STORAGE_BUFFER, len * 4, ptr, 0)
before recording the new settings snapshot; finally it binds the buffer,
renders, and unbinds. -/
def filter_texture (tp : TransformSpec → Nat → Nat) (settings : Settings)
    (stateOpt : Option State) : List LogMsg × Except Panic FrameTrace :=
  match stateOpt with
  | none => ([], .error .filterExpect)
  | some st =>
    if settingsChangedCheck st.currentSettings settings then
      if settings.eqRust Settings.default then
        ([.settingsChanged, .identityWarning], .error .todoMemcpy)
      else
        let spec := buildTransform settings
        let lut := sourcePixels.map (tp spec)
        let size := lut.length * 4
        let r := glBufferStorage st.lutBuffer size 0
        ([.settingsChanged, .creatingLut, .renderFinished],
         .ok { newState := { lutBuffer := r.1, currentSettings := some settings },
               rebuilt := true,
               upload := some { sizeBytes := size, flags := 0, glError := r.2 },
               rendered := true })
    else
      ([.renderFinished],
       .ok { newState := st, rebuilt := false, upload := none, rendered := true })

/-- Abbreviation, used in statements only, for the state the rebuild branch
of filter_texture stores: the buffer after the glBufferStorage call with
the full table size and flags 0, and the new settings snapshot. -/
def afterRebuild (st : State) (s : Settings) : State :=
  { lutBuffer := (glBufferStorage st.lutBuffer 67108864 0).1,
    currentSettings := some s }

/-- The log sequence of the rebuild branch. -/
def rebuildLogs : List LogMsg := [.settingsChanged, .creatingLut, .renderFinished]

/-- A concrete stand-in for the opaque lcms2 per-pixel transform, used in
witnesses and counterexamples. -/
def idPixelTransform : TransformSpec → Nat → Nat := fun _ n => n

/-- Concrete non-default configuration: contrast 2, everything else at its
default. -/
def s2a : Settings :=
  { icc := none, brightness := .val 0, contrast := .val 2,
    hue := .val 0, saturation := .val 0 }

/-- Concrete non-default configuration: contrast 3, everything else at its
default. -/
def s2b : Settings :=
  { icc := none, brightness := .val 0, contrast := .val 3,
    hue := .val 0, saturation := .val 0 }

/-- Concrete configuration whose brightness is NaN. -/
def nanS : Settings :=
  { icc := none, brightness := .nan, contrast := .val 1,
    hue := .val 0, saturation := .val 0 }

/-- The buffer state after a successful glBufferStorage of the full table
with flags 0: immutable store, no dynamic-storage bit. -/
def fullImmutableBuffer : GlBufferObj :=
  { immutableStore := true, dynamicStorage := false, sizeBytes := some 67108864 }

/-- The upload record of a first, successful rebuild. -/
def uploadA : UploadCall := { sizeBytes := 67108864, flags := 0, glError := none }

/-- The frame trace of a first rebuild with configuration s2a from the
freshly started state. -/
def trA : FrameTrace :=
  { newState := afterRebuild initialState s2a, rebuilt := true,
    upload := some uploadA, rendered := true }

/-- NaN on the right never compares IEEE-equal. -/
theorem F64.ieeeEq_nan_right (x : F64) : x.ieeeEq F64.nan = false := by
  cases x <;> rfl

/-- NaN on the left never compares IEEE-equal. -/
theorem F64.ieeeEq_nan_left (x : F64) : F64.nan.ieeeEq x = false := by
  cases x <;> rfl

/-- A double that is not NaN compares IEEE-equal to itself. -/
theorem F64.ieeeEq_refl {x : F64} (h : x.isNaN = false) : x.ieeeEq x = true := by
  cases x
  · simp [F64.isNaN] at h
  · simp [F64.ieeeEq]

/-- A double whose isNaN flag is set is the NaN value. -/
theorem F64.eq_nan_of_isNaN {x : F64} (h : x.isNaN = true) : x = F64.nan := by
  cases x
  · rfl
  · simp [F64.isNaN] at h

/-- A NaN-free configuration is PartialEq-equal to itself. -/
theorem Settings.eqRust_refl {s : Settings} (h : s.hasNaN = false) :
    s.eqRust s = true := by
  simp only [Settings.hasNaN, Bool.or_eq_false_iff] at h
  obtain ⟨⟨⟨hb, hc⟩, hh⟩, hs⟩ := h
  simp [Settings.eqRust, F64.ieeeEq_refl hb, F64.ieeeEq_refl hc,
    F64.ieeeEq_refl hh, F64.ieeeEq_refl hs]

/-- A configuration with a NaN scalar compares PartialEq-unequal to every
configuration placed on the left. -/
theorem Settings.eqRust_false_right (a : Settings) {s : Settings}
    (h : s.hasNaN = true) : a.eqRust s = false := by
  simp only [Settings.hasNaN, Bool.or_eq_true] at h
  rcases h with ((hb | hc) | hh) | hs
  · rw [Settings.eqRust, F64.eq_nan_of_isNaN hb, F64.ieeeEq_nan_right]; simp
  · rw [Settings.eqRust, F64.eq_nan_of_isNaN hc, F64.ieeeEq_nan_right]; simp
  · rw [Settings.eqRust, F64.eq_nan_of_isNaN hh, F64.ieeeEq_nan_right]; simp
  · rw [Settings.eqRust, F64.eq_nan_of_isNaN hs, F64.ieeeEq_nan_right]; simp

/-- A configuration with a NaN scalar compares PartialEq-unequal to every
configuration placed on the right. -/
theorem Settings.eqRust_false_left {s : Settings} (a : Settings)
    (h : s.hasNaN = true) : s.eqRust a = false := by
  simp only [Settings.hasNaN, Bool.or_eq_true] at h
  rcases h with ((hb | hc) | hh) | hs
  · rw [Settings.eqRust, F64.eq_nan_of_isNaN hb, F64.ieeeEq_nan_left]; simp
  · rw [Settings.eqRust, F64.eq_nan_of_isNaN hc, F64.ieeeEq_nan_left]; simp
  · rw [Settings.eqRust, F64.eq_nan_of_isNaN hh, F64.ieeeEq_nan_left]; simp
  · rw [Settings.eqRust, F64.eq_nan_of_isNaN hs, F64.ieeeEq_nan_left]; simp

/-- Cache-hit branch of filter_texture: when the settings-changed test is
false, the call renders with the stored table, performs no upload and
leaves the state unchanged. -/
theorem filter_texture_hit (tp : TransformSpec → Nat → Nat) (s : Settings)
    (st : State) (h : settingsChangedCheck st.currentSettings s = false) :
    filter_texture tp s (some st) =
      ([.renderFinished],
       .ok { newState := st, rebuilt := false, upload := none, rendered := true }) := by
  simp [filter_texture, h]

/-- Identity branch of filter_texture: on a settings change to the default
configuration, the call logs the warning and panics via todo!. -/
theorem filter_texture_identity (tp : TransformSpec → Nat → Nat) (s : Settings)
    (st : State) (h1 : settingsChangedCheck st.currentSettings s = true)
    (h2 : s.eqRust Settings.default = true) :
    filter_texture tp s (some st) =
      ([.settingsChanged, .identityWarning], .error .todoMemcpy) := by
  simp [filter_texture, h1, h2]

/-- Rebuild branch of filter_texture: on a settings change to a non-default
configuration, the call builds the transform, uploads 16777216 * 4 bytes
with glBufferStorage and flags 0, and stores the new snapshot. -/
theorem filter_texture_rebuild (tp : TransformSpec → Nat → Nat) (s : Settings)
    (st : State) (h1 : settingsChangedCheck st.currentSettings s = true)
    (h2 : s.eqRust Settings.default = false) :
    filter_texture tp s (some st) =
      (rebuildLogs,
       .ok { newState := afterRebuild st s,
             rebuilt := true,
             upload := some { sizeBytes := 67108864, flags := 0,
                              glError := (glBufferStorage st.lutBuffer 67108864 0).2 },
             rendered := true }) := by
  simp [filter_texture, h1, h2, sourcePixels, afterRebuild, rebuildLogs]

/-- Claim C1: the claim states that for the default identity configuration
the per-frame path warns but does not fail and still publishes an identity
table. The code instead warns and then aborts: evaluated at the default
configuration on a freshly started filter, filter_texture emits the
settings-changed trace and the identity warning and then panics through
the todo! marker, publishing no table at all. -/
theorem c1_identity_config_warns_then_panics (tp : TransformSpec → Nat → Nat) :
    filter_texture tp Settings.default (some initialState) =
      ([LogMsg.settingsChanged, LogMsg.identityWarning],
       Except.error Panic.todoMemcpy) :=
  filter_texture_identity tp Settings.default initialState (by decide) (by decide)

/-- Claim C2: the claim states that every LUT upload uses a storage mode
permitting later replacement. The code allocates with glBufferStorage and
flags 0: the first rebuild creates an immutable store without the
dynamic-storage bit, and the second rebuild (configuration contrast 2
followed by contrast 3) has its glBufferStorage call fail with
GL_INVALID_OPERATION, leaving the old table in place. -/
theorem c2_upload_storage_is_write_once :
    filter_texture idPixelTransform s2a (some initialState) =
      (rebuildLogs, Except.ok trA) ∧
    trA.newState.lutBuffer.immutableStore = true ∧
    trA.newState.lutBuffer.dynamicStorage = false ∧
    filter_texture idPixelTransform s2b (some trA.newState) =
      (rebuildLogs,
       Except.ok { newState := { lutBuffer := fullImmutableBuffer,
                                 currentSettings := some s2b },
                   rebuilt := true,
                   upload := some { sizeBytes := 67108864, flags := 0,
                                    glError := some GlError.invalidOp },
                   rendered := true }) := by
  refine ⟨?_, by decide, by decide, ?_⟩
  · rw [filter_texture_rebuild idPixelTransform s2a initialState (by decide) (by decide)]
    rfl
  · rw [filter_texture_rebuild idPixelTransform s2b trA.newState (by decide) (by decide)]
    rfl

/-- Claim C3, counterexample: for the configuration with contrast 2 and no
custom icc profile, the rebuild constructs the two-profile transform whose
flags are the library default, with neither NO_NEGATIVES nor
KEEP_SEQUENCE set — refuting the claim that both branches are built with
flags that forbid negatives and preserve the sequence. -/
theorem c3_counterexample_two_profile_flags_empty :
    buildTransform s2a =
      TransformSpec.twoProfile
        (ProfileKind.bchsw 255 (F64.val 0) (F64.val 2) (F64.val 0) (F64.val 0))
        PixelFormat.rgba8 ProfileKind.srgb PixelFormat.rgba8 Intent.perceptual
        { noNegatives := false, keepSequence := false } ∧
    (buildTransform s2a).flags.noNegatives = false ∧
    (buildTransform s2a).flags.keepSequence = false := by
  decide

/-- Claim C3, amended: every constructed transform uses perceptual intent;
the NO_NEGATIVES and KEEP_SEQUENCE flags are passed only in the
multi-profile branch (custom icc present), while the two-profile branch
(no custom icc) passes the library default empty flags. -/
theorem c3_intent_perceptual_flags_only_multiprofile (s : Settings) :
    (buildTransform s).intent = Intent.perceptual ∧
    (buildTransform s).flags =
      (if s.icc.isSome then ({ noNegatives := true, keepSequence := true } : TransformFlags)
       else TransformFlags.default) := by
  cases hicc : s.icc <;>
    simp [buildTransform, hicc, TransformSpec.intent, TransformSpec.flags]

/-- Claim C5, counterexample: a hue of exactly 360 degrees lies within the
declared parameter bounds (minimum 0, maximum 360, both inclusive under
GLib validation) and is therefore an accepted configuration value,
refuting the claimed half-open range. -/
theorem c5_counterexample_hue_360_accepted :
    hueParamSpec.accepts 360 = true := by
  decide

/-- Claim C5, amended: the hue field is constrained to the closed range
from 0 to 360: a value is accepted exactly when it lies in that closed
interval, so exactly 360 is accepted. -/
theorem c5_hue_closed_range (v : ℚ) :
    hueParamSpec.accepts v = true ↔ 0 ≤ v ∧ v ≤ 360 := by
  simp [ParamSpecDouble.accepts, hueParamSpec]

/-- Claim C4, counterexample: for the configuration whose brightness is
NaN, two successive ensure calls with no intervening change both take the
rebuild path — the second call does not compare structurally equal to the
stored snapshot, so the expensive build runs twice, refuting the claim for
all configurations. -/
theorem c4_counterexample_nan_rebuilds_twice :
    (filter_texture idPixelTransform nanS (some initialState)).2.map
        FrameTrace.rebuilt = Except.ok true ∧
    (filter_texture idPixelTransform nanS (some initialState)).2.map
        (fun tr => tr.newState) = Except.ok (afterRebuild initialState nanS) ∧
    (filter_texture idPixelTransform nanS
        (some (afterRebuild initialState nanS))).2.map
        FrameTrace.rebuilt = Except.ok true := by
  refine ⟨?_, ?_, ?_⟩
  · rw [filter_texture_rebuild idPixelTransform nanS initialState (by decide) (by decide)]
    rfl
  · rw [filter_texture_rebuild idPixelTransform nanS initialState (by decide) (by decide)]
    rfl
  · rw [filter_texture_rebuild idPixelTransform nanS (afterRebuild initialState nanS)
      (by decide) (by decide)]
    rfl

/-- Claim C4, amended: for every configuration C none of whose scalars is
NaN, other than the default configuration (whose first ensure aborts in
the unfinished identity branch), two successive ensure calls from a state
whose snapshot differs from C perform the expensive build exactly once:
the first call rebuilds and stores the snapshot, and the second call
compares structurally equal to it, makes no library call and no upload,
and returns the stored state unchanged. -/
theorem c4_ensure_twice_builds_once (tp : TransformSpec → Nat → Nat)
    (s : Settings) (st : State) (h1 : s.hasNaN = false)
    (h2 : s.eqRust Settings.default = false)
    (h3 : settingsChangedCheck st.currentSettings s = true) :
    filter_texture tp s (some st) =
      (rebuildLogs,
       Except.ok { newState := afterRebuild st s,
                   rebuilt := true,
                   upload := some { sizeBytes := 67108864, flags := 0,
                                    glError := (glBufferStorage st.lutBuffer 67108864 0).2 },
                   rendered := true }) ∧
    filter_texture tp s (some (afterRebuild st s)) =
      ([.renderFinished],
       Except.ok { newState := afterRebuild st s, rebuilt := false,
                   upload := none, rendered := true }) := by
  refine ⟨filter_texture_rebuild tp s st h3 h2, ?_⟩
  refine filter_texture_hit tp s (afterRebuild st s) ?_
  simp [settingsChangedCheck, afterRebuild, optSettingsEq, Settings.eqRust_refl h1]

/-- Witness for claim C4: the amended cache property instantiated at the
concrete configuration with contrast 2 on a freshly started filter. -/
theorem c4_ensure_twice_builds_once_witness :
    s2a.hasNaN = false ∧ s2a.eqRust Settings.default = false ∧
    settingsChangedCheck initialState.currentSettings s2a = true ∧
    filter_texture idPixelTransform s2a (some (afterRebuild initialState s2a)) =
      ([.renderFinished],
       Except.ok { newState := afterRebuild initialState s2a, rebuilt := false,
                   upload := none, rendered := true }) :=
  ⟨by decide, by decide, by decide,
   (c4_ensure_twice_builds_once idPixelTransform s2a initialState
     (by decide) (by decide) (by decide)).2⟩

/-- Claim C6: the pixel buffer handed to the transform library enumerates
the full 24-bit domain in ascending index order: it has exactly 16777216
entries and entry i holds the packed value i for every i below 16777216. -/
theorem c6_source_pixels_enumerate_domain :
    sourcePixels.length = 16777216 ∧
    ∀ i : Nat, i < 16777216 → sourcePixels[i]? = some i := by
  constructor
  · simp [sourcePixels]
  · intro i hi
    simpa [sourcePixels] using List.getElem?_range hi

/-- Witness for claim C6: the enumeration property instantiated at index
12345. -/
theorem c6_source_pixels_enumerate_domain_witness :
    12345 < 16777216 ∧ sourcePixels[12345]? = some 12345 :=
  ⟨by norm_num, c6_source_pixels_enumerate_domain.2 12345 (by norm_num)⟩

/-- Claim C7: whenever a filter_texture invocation performs an upload, the
byte size passed to glBufferStorage is exactly 16777216 * 4, independent
of the configuration and of the transform the library applied. -/
theorem c7_upload_size_always_full_table (tp : TransformSpec → Nat → Nat)
    (s : Settings) (stateOpt : Option State) (logs : List LogMsg)
    (tr : FrameTrace) (u : UploadCall)
    (h1 : filter_texture tp s stateOpt = (logs, Except.ok tr))
    (h2 : tr.upload = some u) :
    u.sizeBytes = 16777216 * 4 := by
  cases stateOpt with
  | none => simp [filter_texture] at h1
  | some st =>
    by_cases hch : settingsChangedCheck st.currentSettings s = true
    · by_cases hdef : s.eqRust Settings.default = true
      · rw [filter_texture_identity tp s st hch hdef] at h1
        simp at h1
      · rw [filter_texture_rebuild tp s st hch
          (by simpa using hdef)] at h1
        have htr := (Prod.mk.injEq _ _ _ _).mp h1
        have htr2 := htr.2
        simp only [Except.ok.injEq] at htr2
        rw [← htr2] at h2
        simp only [Option.some.injEq] at h2
        rw [← h2]
    · rw [filter_texture_hit tp s st (by simpa using hch)] at h1
      have htr := (Prod.mk.injEq _ _ _ _).mp h1
      have htr2 := htr.2
      simp only [Except.ok.injEq] at htr2
      rw [← htr2] at h2
      simp at h2

/-- Witness for claim C7: a concrete rebuild with configuration s2a from
the freshly started state uploads exactly 16777216 * 4 bytes. -/
theorem c7_upload_size_always_full_table_witness :
    filter_texture idPixelTransform s2a (some initialState) =
      (rebuildLogs, Except.ok trA) ∧
    trA.upload = some uploadA ∧
    uploadA.sizeBytes = 16777216 * 4 := by
  have h1 : filter_texture idPixelTransform s2a (some initialState) =
      (rebuildLogs, Except.ok trA) := by
    rw [filter_texture_rebuild idPixelTransform s2a initialState (by decide) (by decide)]
    rfl
  exact ⟨h1, rfl,
    c7_upload_size_always_full_table idPixelTransform s2a (some initialState)
      rebuildLogs trA uploadA h1 rfl⟩

/-- Claim C8: lifecycle violations are panic-class aborts, never silent
no-ops: gl_start while already started hits the assert, gl_stop while
stopped hits the expect, and filter_texture while stopped hits the expect,
each yielding an unrecoverable error rather than a normal result. -/
theorem c8_lifecycle_violations_panic :
    (∀ st : State, gl_start (some st) = Except.error Panic.startAssert) ∧
    gl_stop (none : Option State) = Except.error Panic.stopExpect ∧
    (∀ (tp : TransformSpec → Nat → Nat) (s : Settings),
      filter_texture tp s none = ([], Except.error Panic.filterExpect)) :=
  ⟨fun _ => rfl, rfl, fun _ _ => rfl⟩

/-- Claim C9: on a frame whose configuration compares PartialEq-equal to
the cached snapshot, filter_texture performs no upload, leaves the state
untouched, and only renders. -/
theorem c9_cache_hit_no_upload (tp : TransformSpec → Nat → Nat)
    (s cs : Settings) (st : State) (h1 : st.currentSettings = some cs)
    (h2 : cs.eqRust s = true) :
    filter_texture tp s (some st) =
      ([.renderFinished],
       Except.ok { newState := st, rebuilt := false, upload := none,
                   rendered := true }) := by
  refine filter_texture_hit tp s st ?_
  simp [settingsChangedCheck, h1, optSettingsEq, h2]

/-- Witness for claim C9: the cache-hit property instantiated with the
concrete configuration s2a already stored in the state. -/
theorem c9_cache_hit_no_upload_witness :
    (afterRebuild initialState s2a).currentSettings = some s2a ∧
    s2a.eqRust s2a = true ∧
    filter_texture idPixelTransform s2a (some (afterRebuild initialState s2a)) =
      ([.renderFinished],
       Except.ok { newState := afterRebuild initialState s2a, rebuilt := false,
                   upload := none, rendered := true }) :=
  ⟨rfl, by decide,
   c9_cache_hit_no_upload idPixelTransform s2a s2a (afterRebuild initialState s2a)
     rfl (by decide)⟩

/-- Claim C10: a configuration with a NaN scalar never compares
PartialEq-equal to any stored snapshot, so every frame with such a
configuration takes the rebuild-and-upload path: the cache-hit guarantee
does not hold for it. -/
theorem c10_nan_config_never_cache_hits (tp : TransformSpec → Nat → Nat)
    (st : State) (s : Settings) (h : s.hasNaN = true) :
    (∀ stored : Settings, stored.eqRust s = false) ∧
    (filter_texture tp s (some st)).2.map FrameTrace.rebuilt = Except.ok true ∧
    (filter_texture tp s (some st)).2.map
      (fun tr => tr.upload.isSome) = Except.ok true := by
  have hne : ∀ stored : Settings, stored.eqRust s = false :=
    fun stored => Settings.eqRust_false_right stored h
  have hch : settingsChangedCheck st.currentSettings s = true := by
    cases hcur : st.currentSettings with
    | none => rfl
    | some cs => simp [settingsChangedCheck, optSettingsEq, hne cs]
  have hdef : s.eqRust Settings.default = false :=
    Settings.eqRust_false_left Settings.default h
  rw [filter_texture_rebuild tp s st hch hdef]
  exact ⟨hne, rfl, rfl⟩

/-- Witness for claim C10: the NaN-never-hits property instantiated at the
concrete configuration whose brightness is NaN, on a freshly started
filter. -/
theorem c10_nan_config_never_cache_hits_witness :
    nanS.hasNaN = true ∧
    (filter_texture idPixelTransform nanS (some initialState)).2.map
      FrameTrace.rebuilt = Except.ok true :=
  ⟨by decide,
   (c10_nan_config_never_cache_hits idPixelTransform initialState nanS
     (by decide)).2.1⟩

end Gllcms
